import Mathlib

/-!
Shallow embedding of `src/lib/dialects/abstract/connection-manager.js`
(the abstract ConnectionManager of sequelize v4): the replication router
(`pool.acquire` / `pool.release`), the read-target round robin in the read
pool's create callback, one-time database version detection in
`getConnection`, `close` semantics, `releaseConnection`, and the
replication-config rewriting performed by `initPools`.

JS `undefined` is modelled as `Option.none`; promise-based control flow is
modelled as explicit state passing on a `Manager` record plus event lists.
-/

namespace ConnMgr

/-- Which sub-pool of the replication router an operation is routed to. -/
inductive PoolTarget where
  | read
  | write
deriving DecidableEq

/-- A connection handle as the replication router sees it: `queryType` is the
intent tag assigned at creation (`some "read"` by the read pool's create,
`some "write"` by the write pool's create); `none` models a handle with no
tag (foreign origin). `id` identifies the physical handle. -/
structure Client where
  id : Nat
  queryType : Option String
deriving DecidableEq

/-- Errors surfaced by the manager and by sub-pool release. -/
inductive MgrError where
  | managerClosed
  | foreignHandle
deriving DecidableEq

/-- Lines 121-128: the replication router's
`acquire: (priority, queryType, useMaster)`. The code runs
`useMaster = _.isUndefined(useMaster) ? false : useMaster` and then delegates
to the read pool exactly when `queryType === 'SELECT' && !useMaster`,
otherwise to the write pool. -/
def routerAcquire (queryType : Option String) (useMaster : Option Bool) : PoolTarget :=
  let um := match useMaster with
    | none => false
    | some b => b
  if queryType = some "SELECT" ∧ um = false then PoolTarget.read else PoolTarget.write

/-- The spec's routing rule, written from its words (section 4.2): delegate to
the read pool iff the query type indicates a read and useMaster is false. -/
def specAcquireRoute (isRead useMaster : Bool) : PoolTarget :=
  if isRead && !useMaster then PoolTarget.read else PoolTarget.write

/-- Modelled from the spec: the Pool Engine (spec section 4.1) is supplied by
the external generic-pool package, whose code is not under src/. Per the
spec, a release of a handle the pool never issued (foreign origin) is an
error condition; `owned` is the set of handle ids the sub-pool has issued. -/
def subPoolRelease (owned : List Nat) (c : Client) : Except MgrError Unit :=
  if c.id ∈ owned then Except.ok () else Except.error MgrError.foreignHandle

/-- Lines 113-120: the replication router's `release: client`. A client tagged
`queryType === 'read'` is released to the read pool; every other client is
released to the write pool. The first component records which sub-pool
received the release. -/
def routerRelease (readOwned writeOwned : List Nat) (c : Client) :
    PoolTarget × Except MgrError Unit :=
  if c.queryType = some "read" then (PoolTarget.read, subPoolRelease readOwned c)
  else (PoolTarget.write, subPoolRelease writeOwned c)

/-- State of the replication read pool: `reads` is the closure variable of
`initPools` used for round robin, `idle` the idle handles (each recorded as
the index of the read target it was opened against), `created` the targets of
every connection created so far, in creation order. -/
structure ReadPoolState where
  reads : Nat
  idle : List Nat
  created : List Nat
deriving DecidableEq

/-- Lines 143-150: the read pool's `create` callback.
`const nextRead = reads++ % config.replication.read.length` picks the target,
then the new connection is opened against read target `nextRead` and tagged
`queryType = 'read'`. `R` is `config.replication.read.length`. -/
def readCreate (R : Nat) (p : ReadPoolState) : ReadPoolState × Nat :=
  let nextRead := p.reads % R
  ({ p with reads := p.reads + 1, created := p.created ++ [nextRead] }, nextRead)

/-- Modelled from the spec: acquisition on the Pool Engine (spec section 4.1)
returns an idle handle when one exists, and only otherwise begins a create via
the pool's create callback; the engine itself is the external generic-pool
package, not under src/. -/
def readAcquire (R : Nat) (p : ReadPoolState) : ReadPoolState × Nat :=
  match p.idle with
  | [] => readCreate R p
  | t :: rest => ({ p with idle := rest }, t)

/-- Runs `n` consecutive creations through the read pool's create callback. -/
def createN (R : Nat) : Nat → ReadPoolState → ReadPoolState
  | 0, p => p
  | Nat.succ n, p => createN R n (readCreate R p).1

/-- Pool bounds of the config (`pool.max`, `pool.min`, `pool.idle`). -/
structure PoolCfg where
  max : Nat
  min : Nat
  idle : Nat
deriving DecidableEq

/-- A connection-target configuration (the per-target objects under
`replication.write` / `replication.read`), with the representative connection
fields; a missing field is JS `undefined`. -/
structure TargetCfg where
  host : Option String
  port : Option Nat
  username : Option String
  password : Option String
  database : Option String
deriving DecidableEq

/-- `config.replication.read` before normalization: the user may supply one
target object or an array of them (lines 100-102 wrap a non-array). -/
inductive ReplRead where
  | one : TargetCfg → ReplRead
  | many : List TargetCfg → ReplRead
deriving DecidableEq

/-- The `config.replication` sub-object. -/
structure ReplicationCfg where
  write : TargetCfg
  read : ReplRead
deriving DecidableEq

/-- The manager's config snapshot (`this.config`), with the representative
top-level connection fields, the pool bounds, and the optional replication
sub-config. -/
structure Config where
  host : Option String
  port : Option Nat
  username : Option String
  password : Option String
  database : Option String
  pool : PoolCfg
  replication : Option ReplicationCfg
deriving DecidableEq

/-- One field of lodash `_.defaults`: keep `a` when defined, else take `b`. -/
def fillField {α : Type} (a b : Option α) : Option α :=
  match a with
  | some x => some x
  | none => b

/-- `_.defaults(t, _.omit(config, 'replication'))`: every field left undefined
in the target is filled from the corresponding top-level config field. -/
def defaultsTarget (t : TargetCfg) (c : Config) : TargetCfg :=
  { host := fillField t.host c.host,
    port := fillField t.port c.port,
    username := fillField t.username c.username,
    password := fillField t.password c.password,
    database := fillField t.database c.database }

/-- Lines 100-102: a non-array `replication.read` is wrapped in a one-element
array. -/
def replReadList : ReplRead → List TargetCfg
  | ReplRead.one t => [t]
  | ReplRead.many ts => ts

/-- Lines 98-110 of `initPools`, as a function on the stored config: with
replication configured, `replication.read` is normalized to an array,
`replication.write` is rewritten by `_.defaults` against the top-level
config, and each read target is rewritten the same way — all on `this.config`
itself. Without replication the config is untouched. -/
def initPoolsConfig (c : Config) : Config :=
  match c.replication with
  | none => c
  | some r =>
    let r2 : ReplicationCfg :=
      { write := defaultsTarget r.write c,
        read := ReplRead.many ((replReadList r.read).map (fun t => defaultsTarget t c)) }
    { c with replication := some r2 }

/-- The orchestrator's state. `databaseVersion = none` models
`sequelize.options.databaseVersion === 0` (unresolved); `versionPromise` holds
the id of the in-flight detection (`null` = `none`); `openedDetections` counts
private detection connections opened via `_connect`; `versionQueries` counts
executed version queries; `closed` records that `close()` replaced
`this.getConnection` with the rejecting function; `hasPool` records that
`this.pool` is set. -/
structure Manager where
  config : Config
  databaseVersion : Option String
  defaultVersion : String
  versionPromise : Option Nat
  nextId : Nat
  openedDetections : Nat
  versionQueries : Nat
  closed : Bool
  hasPool : Bool
deriving DecidableEq

/-- Lines 62-69: `close()` drains the pool via `onProcessExit`, removes the
exit listener, and replaces `this.getConnection` with a function that rejects
with the closed-manager error. The `this.pool` reference itself is left in
place. -/
def close (m : Manager) : Manager :=
  { m with closed := true }

/-- Lines 185-208, the version phase of one `getConnection` call: when the
version is already resolved the call proceeds straight to the pool
(attachment `none`); when a detection is in flight the call awaits that same
shared promise (attachment = its id); otherwise the call starts a detection —
opening one private connection — and awaits the new promise. -/
def versionStep (m : Manager) : Manager × Option Nat :=
  match m.databaseVersion with
  | some _ => (m, none)
  | none =>
    match m.versionPromise with
    | some p => (m, some p)
    | none =>
      ({ m with versionPromise := some m.nextId, nextId := m.nextId + 1,
                openedDetections := m.openedDetections + 1 }, some m.nextId)

/-- Options of one `getConnection` call. -/
structure GcOpts where
  priority : Option Nat
  type : Option String
  useMaster : Option Bool
deriving DecidableEq

/-- The pool acquisition a completed `getConnection` performs at lines
210-212: `this.pool.acquire(options.priority, options.type,
options.useMaster)`. -/
structure PoolAcquire where
  priority : Option Nat
  type : Option String
  useMaster : Option Bool
deriving DecidableEq

/-- Lines 181-213 (together with the `close` override of lines 66-68): a
`getConnection` call on a closed manager rejects with the closed-manager
error and performs neither the version phase nor a pool acquisition; on an
open manager it runs the version phase and then acquires from the pool with
the call's options, the returned attachment being the shared detection
promise it awaits first (if any). -/
def getConnection (m : Manager) (o : GcOpts) :
    Manager × Except MgrError (Option Nat × PoolAcquire) :=
  if m.closed then
    (m, Except.error MgrError.managerClosed)
  else
    let s := versionStep m
    (s.1, Except.ok (s.2, { priority := o.priority, type := o.type, useMaster := o.useMaster }))

/-- Lines 215-219: `releaseConnection` delegates to `this.pool.release`
unconditionally — it is not replaced by `close()` and performs no closed
check. `readOwned` / `writeOwned` are the handle ids issued by the two
sub-pools. -/
def releaseConnection (m : Manager) (readOwned writeOwned : List Nat) (c : Client) :
    Manager × (PoolTarget × Except MgrError Unit) :=
  (m, routerRelease readOwned writeOwned c)

/-- Events of the version-detection body (lines 189-200). `poolAcquire` is
included only so that its absence from a detection trace is expressible. -/
inductive DetEv where
  | factoryConnect
  | poolAcquire
  | versionQuery (loggingSuppressed : Bool)
  | recordVersion (v : String)
  | factoryDisconnect
deriving DecidableEq

/-- Lines 189-200, the success path of the detection promise body: open a
private connection via `_connect` (straight through the Factory, not the
pool), run `sequelize.databaseVersion` with a no-op logging function, record
`semver.valid(version) ? version : this.defaultVersion`, clear
`this.versionPromise`, and disconnect the private connection. `sv` stands for
`semver.valid` (the external semver package) and `queryResult` for the string
the version query returned. -/
def runDetection (sv : String → Bool) (m : Manager) (queryResult : String) :
    Manager × List DetEv :=
  let v := if sv queryResult then queryResult else m.defaultVersion
  ({ m with databaseVersion := some v, versionPromise := none,
            versionQueries := m.versionQueries + 1 },
   [DetEv.factoryConnect, DetEv.versionQuery true, DetEv.recordVersion v,
    DetEv.factoryDisconnect])

/-- Lines 201-204, the catch handler of the detection promise: clear
`this.versionPromise` and rethrow, so the error is what every caller awaiting
the shared promise receives (the second component). -/
def detectionFail (m : Manager) (err : String) : Manager × String :=
  ({ m with versionPromise := none }, err)

/-- Runs the version phase of `n` `getConnection` calls that all arrive before
the detection resolves, collecting each call's attachment. -/
def runCalls : Nat → Manager → Manager × List (Option Nat)
  | 0, m => (m, [])
  | Nat.succ n, m =>
    let s := versionStep m
    let r := runCalls n s.1
    (r.1, s.2 :: r.2)

/-- A concrete non-replication config, for concrete evaluations. -/
def cfgEx : Config :=
  { host := some "localhost", port := some 3306, username := some "root",
    password := none, database := some "db",
    pool := { max := 5, min := 0, idle := 10000 },
    replication := none }

/-- A concrete freshly constructed manager (version unresolved, no detection
in flight, open). -/
def mgrEx : Manager :=
  { config := cfgEx, databaseVersion := none, defaultVersion := "5.6.0",
    versionPromise := none, nextId := 0, openedDetections := 0,
    versionQueries := 0, closed := false, hasPool := true }

/-- C3: the replication router's acquire delegates to the read pool exactly
when the query type indicates a read and the effective useMaster is false,
and to the write pool in every other case: the source routing of lines
121-128 coincides with the spec's routing rule pointwise. -/
theorem routerAcquire_matches_spec (qt : Option String) (um : Option Bool) :
    routerAcquire qt um =
      specAcquireRoute (decide (qt = some "SELECT")) (um.getD false) := by
  cases um <;>
    simp only [routerAcquire, specAcquireRoute, Option.getD] <;>
    by_cases h : qt = some "SELECT" <;>
    simp [h]

/-- Witness for C3 at a concrete read acquisition. -/
theorem routerAcquire_matches_spec_witness :
    routerAcquire (some "SELECT") none
      = specAcquireRoute (decide ((some "SELECT" : Option String) = some "SELECT"))
          ((none : Option Bool).getD false) :=
  routerAcquire_matches_spec (some "SELECT") none

/-- C10: in the router's acquire an omitted useMaster behaves as false, the
read pool is chosen for exactly the query type SELECT (with effective
useMaster false), and any other query type — including the literal read or an
omitted type — goes to the write pool. -/
theorem routerAcquire_only_select_reads (qt : Option String) (um : Option Bool) :
    routerAcquire qt none = routerAcquire qt (some false)
  ∧ (routerAcquire qt um = PoolTarget.read ↔ qt = some "SELECT" ∧ um.getD false = false)
  ∧ routerAcquire (some "read") um = PoolTarget.write
  ∧ routerAcquire none um = PoolTarget.write := by
  refine ⟨rfl, ?_, ?_, ?_⟩ <;>
    cases um <;>
    simp only [routerAcquire, Option.getD] <;>
    by_cases h : qt = some "SELECT" <;>
    simp [h]

/-- Witness for C10 at the literal query type read with useMaster omitted. -/
theorem routerAcquire_only_select_reads_witness :
    routerAcquire (some "read") none = routerAcquire (some "read") (some false)
  ∧ (routerAcquire (some "read") none = PoolTarget.read
      ↔ (some "read" : Option String) = some "SELECT"
        ∧ (none : Option Bool).getD false = false)
  ∧ routerAcquire (some "read") none = PoolTarget.write
  ∧ routerAcquire none none = PoolTarget.write :=
  routerAcquire_only_select_reads (some "read") none

/-- C5: the router's release sends a read-tagged handle to the read pool and a
write-tagged handle to the write pool, and releasing a handle owned by
neither sub-pool (foreign origin) is an error. -/
theorem routerRelease_routes (ro wo : List Nat) (idr idw : Nat) :
    (routerRelease ro wo { id := idr, queryType := some "read" }).1 = PoolTarget.read
  ∧ (routerRelease ro wo { id := idw, queryType := some "write" }).1 = PoolTarget.write
  ∧ (∀ c : Client, c.id ∉ ro → c.id ∉ wo →
      (routerRelease ro wo c).2 = Except.error MgrError.foreignHandle) := by
  refine ⟨by simp [routerRelease], by simp [routerRelease], ?_⟩
  intro c h1 h2
  simp only [routerRelease]
  split <;> simp [subPoolRelease, h1, h2]

/-- Witness for C5 at a concrete foreign (untagged) handle. -/
theorem routerRelease_routes_witness :
    (routerRelease [1] [2] { id := 3, queryType := none }).2 =
      Except.error MgrError.foreignHandle :=
  (routerRelease_routes [1] [2] 0 0).2.2 { id := 3, queryType := none }
    (by decide) (by decide)

/-- C2: a getConnection call on a closed manager rejects with the
closed-manager error, leaving the state untouched (so no pool acquisition and
no version work), and no modelled operation brings a closed manager back out
of the closed state. -/
theorem getConnection_after_close (m m2 : Manager) (o : GcOpts) (sv : String → Bool)
    (q e : String) (ro wo : List Nat) (c : Client) :
    getConnection (close m) o = (close m, Except.error MgrError.managerClosed)
  ∧ (close m).closed = true
  ∧ (m2.closed = true →
      (getConnection m2 o).1.closed = true
    ∧ (close m2).closed = true
    ∧ (releaseConnection m2 ro wo c).1.closed = true
    ∧ (runDetection sv m2 q).1.closed = true
    ∧ (detectionFail m2 e).1.closed = true) := by
  refine ⟨by simp [getConnection, close], rfl, ?_⟩
  intro h
  refine ⟨?_, rfl, h, h, h⟩
  simp [getConnection, h]

/-- Witness for C2 at a concrete closed manager. -/
theorem getConnection_after_close_witness :
    (getConnection (close mgrEx) { priority := none, type := none, useMaster := none }).1.closed
      = true :=
  ((getConnection_after_close mgrEx (close mgrEx)
      { priority := none, type := none, useMaster := none }
      (fun _ => true) "q" "e" [] [] { id := 0, queryType := none }).2.2 rfl).1

/-- C9: close replaces only getConnection — releaseConnection routes exactly
as before close, the pool reference is left intact, and a release after close
never fails with the closed-manager error. -/
theorem releaseConnection_after_close (m : Manager) (ro wo : List Nat) (c : Client) :
    (releaseConnection (close m) ro wo c).2 = (releaseConnection m ro wo c).2
  ∧ (close m).hasPool = m.hasPool
  ∧ (releaseConnection (close m) ro wo c).2.2 ≠ Except.error MgrError.managerClosed := by
  refine ⟨rfl, rfl, ?_⟩
  simp only [releaseConnection, routerRelease]
  split <;> simp only [subPoolRelease] <;> split <;> simp

/-- Witness for C9: an outstanding read-tagged handle is released after close
with no closed-manager error. -/
theorem releaseConnection_after_close_witness :
    (releaseConnection (close mgrEx) [5] [] { id := 5, queryType := some "read" }).2
      = (releaseConnection mgrEx [5] [] { id := 5, queryType := some "read" }).2
  ∧ (close mgrEx).hasPool = mgrEx.hasPool
  ∧ (releaseConnection (close mgrEx) [5] [] { id := 5, queryType := some "read" }).2.2
      ≠ Except.error MgrError.managerClosed :=
  releaseConnection_after_close mgrEx [5] [] { id := 5, queryType := some "read" }

/-- Helper: `n` creations through the read pool's create callback append the
targets `reads % R, (reads+1) % R, ...` in order and advance the counter by
`n`, leaving the idle list untouched. -/
theorem createN_spec (R : Nat) (n : Nat) (p : ReadPoolState) :
    (createN R n p).created
      = p.created ++ (List.range n).map (fun i => (p.reads + i) % R)
  ∧ (createN R n p).reads = p.reads + n
  ∧ (createN R n p).idle = p.idle := by
  induction n generalizing p with
  | zero => simp [createN]
  | succ n ih =>
    have h := ih (readCreate R p).1
    simp only [createN] at h ⊢
    refine ⟨?_, ?_, ?_⟩
    · rw [h.1]
      simp only [readCreate, List.range_succ_eq_map, List.map_cons, List.map_map,
        List.append_assoc, List.singleton_append, Nat.add_zero]
      congr 2
      refine List.map_congr_left ?_
      intro i _
      simp only [Function.comp_apply, Nat.succ_eq_add_one]
      congr 1
      omega
    · rw [h.2.1]
      simp [readCreate]
      omega
    · rw [h.2.2]
      simp [readCreate]

/-- C4: with `R` read targets, the `k`-th read connection ever created
(counting from 0) is opened against read target `k % R`, and an acquisition
served from the idle list neither advances the round-robin counter nor
records a creation — the reused handle keeps its original target. -/
theorem readPool_roundRobin (R n k : Nat) (p0 p : ReadPoolState) (t : Nat)
    (rest : List Nat) (h0 : p0.reads = 0) (h1 : p0.created = []) (hk : k < n)
    (hidle : p.idle = t :: rest) :
    ((createN R n p0).created)[k]? = some (k % R)
  ∧ readAcquire R p = ({ p with idle := rest }, t) := by
  constructor
  · rw [(createN_spec R n p0).1, h0, h1]
    simp [List.getElem?_range hk]
  · obtain ⟨rd, idl, cr⟩ := p
    simp only at hidle
    subst hidle
    rfl

/-- Witness for C4: two read targets, ten creations, the fourth created
connection targets replica 1, and reusing an idle handle keeps its target. -/
theorem readPool_roundRobin_witness :
    ((createN 2 10 { reads := 0, idle := [], created := [] }).created)[3]? = some (3 % 2)
  ∧ readAcquire 2 { reads := 4, idle := [1, 0], created := [0, 1, 0, 1] }
      = ({ reads := 4, idle := [0], created := [0, 1, 0, 1] }, 1) :=
  readPool_roundRobin 2 10 3 { reads := 0, idle := [], created := [] }
    { reads := 4, idle := [1, 0], created := [0, 1, 0, 1] } 1 [0]
    rfl rfl (by decide) rfl

/-- A concrete stand-in for `semver.valid` turned into a Bool test, for
concrete evaluations only. -/
def svEx : String → Bool := fun v => v == "5.7.21"

/-- Helper: while a detection is already in flight, every further
`getConnection` version phase leaves the state untouched and attaches the
caller to the same shared promise. -/
theorem runCalls_inflight (n : Nat) (m : Manager) (p : Nat)
    (h0 : m.databaseVersion = none) (h1 : m.versionPromise = some p) :
    runCalls n m = (m, List.replicate n (some p)) := by
  induction n with
  | zero => simp [runCalls]
  | succ n ih =>
    have hv : versionStep m = (m, some p) := by
      simp [versionStep, h0, h1]
    simp [runCalls, hv, ih, List.replicate_succ]

/-- C1: with the version unresolved and no detection in flight, `n ≥ 1`
`getConnection` calls arriving before resolution open exactly one private
detection connection, all attach to the one shared promise, and completing
that single detection executes exactly one version query and records one
resolved version that every caller then observes. -/
theorem versionDetection_single (sv : String → Bool) (m : Manager) (n : Nat)
    (q : String) (h0 : m.databaseVersion = none) (h1 : m.versionPromise = none)
    (hn : 0 < n) :
    (runCalls n m).1.openedDetections = m.openedDetections + 1
  ∧ (runCalls n m).2 = List.replicate n (some m.nextId)
  ∧ (runDetection sv (runCalls n m).1 q).1.versionQueries = m.versionQueries + 1
  ∧ (runDetection sv (runCalls n m).1 q).1.databaseVersion
      = some (if sv q then q else m.defaultVersion) := by
  obtain ⟨k, rfl⟩ : ∃ k, n = k + 1 := ⟨n - 1, by omega⟩
  have hv : versionStep m
      = ({ m with versionPromise := some m.nextId, nextId := m.nextId + 1,
                  openedDetections := m.openedDetections + 1 }, some m.nextId) := by
    simp [versionStep, h0, h1]
  have hrest := runCalls_inflight k
    { m with versionPromise := some m.nextId, nextId := m.nextId + 1,
             openedDetections := m.openedDetections + 1 } m.nextId h0 rfl
  have hrc : runCalls (k + 1) m
      = ({ m with versionPromise := some m.nextId, nextId := m.nextId + 1,
                  openedDetections := m.openedDetections + 1 },
         List.replicate (k + 1) (some m.nextId)) := by
    simp [runCalls, hv, hrest, List.replicate_succ]
  rw [hrc]
  refine ⟨rfl, rfl, rfl, rfl⟩

/-- Witness for C1 at a concrete manager, three concurrent calls and a valid
version string. -/
theorem versionDetection_single_witness :
    (runCalls 3 mgrEx).1.openedDetections = mgrEx.openedDetections + 1
  ∧ (runCalls 3 mgrEx).2 = List.replicate 3 (some mgrEx.nextId)
  ∧ (runDetection svEx (runCalls 3 mgrEx).1 "5.7.21").1.versionQueries
      = mgrEx.versionQueries + 1
  ∧ (runDetection svEx (runCalls 3 mgrEx).1 "5.7.21").1.databaseVersion
      = some (if svEx "5.7.21" then "5.7.21" else mgrEx.defaultVersion) :=
  versionDetection_single svEx mgrEx 3 "5.7.21" rfl rfl (by decide)

/-- C6: the shared in-flight reference is cleared by the detection's success
path and by its catch handler; the catch hands the awaited callers exactly
the propagated error; and after a failure (version still unresolved) the next
call's version phase starts a fresh detection, opening a new private
connection under a new promise. -/
theorem versionPromise_cleared (sv : String → Bool) (m : Manager) (q e : String) :
    (runDetection sv m q).1.versionPromise = none
  ∧ (detectionFail m e).1.versionPromise = none
  ∧ (detectionFail m e).2 = e
  ∧ (m.databaseVersion = none →
      (versionStep (detectionFail m e).1).1.openedDetections = m.openedDetections + 1
    ∧ (versionStep (detectionFail m e).1).2 = some m.nextId) := by
  refine ⟨rfl, rfl, rfl, ?_⟩
  intro h
  constructor <;> simp [versionStep, detectionFail, h]

/-- Witness for C6 at a concrete failed detection. -/
theorem versionPromise_cleared_witness :
    (versionStep (detectionFail mgrEx "boom").1).1.openedDetections
      = mgrEx.openedDetections + 1
  ∧ (versionStep (detectionFail mgrEx "boom").1).2 = some mgrEx.nextId :=
  (versionPromise_cleared svEx mgrEx "q" "boom").2.2.2 rfl

/-- C7: a detection run opens exactly one private connection straight through
the Factory (no pool acquisition occurs in its trace), executes exactly one
version query and that with logging suppressed, records the query result when
valid and the default version otherwise, and its final action is closing the
private connection. -/
theorem detection_private_connection (sv : String → Bool) (m : Manager) (q : String) :
    ((runDetection sv m q).2).count DetEv.factoryConnect = 1
  ∧ DetEv.poolAcquire ∉ (runDetection sv m q).2
  ∧ ((runDetection sv m q).2).filter
      (fun ev => match ev with | DetEv.versionQuery _ => true | _ => false)
      = [DetEv.versionQuery true]
  ∧ (runDetection sv m q).1.databaseVersion = some (if sv q then q else m.defaultVersion)
  ∧ ((runDetection sv m q).2).getLast? = some DetEv.factoryDisconnect := by
  refine ⟨?_, ?_, rfl, rfl, rfl⟩
  · simp [runDetection, List.count_cons]
  · simp [runDetection]

/-- Witness for C7 at a concrete detection whose query result is not a valid
version string. -/
theorem detection_private_connection_witness :
    ((runDetection svEx mgrEx "garbage").2).count DetEv.factoryConnect = 1
  ∧ DetEv.poolAcquire ∉ (runDetection svEx mgrEx "garbage").2
  ∧ ((runDetection svEx mgrEx "garbage").2).filter
      (fun ev => match ev with | DetEv.versionQuery _ => true | _ => false)
      = [DetEv.versionQuery true]
  ∧ (runDetection svEx mgrEx "garbage").1.databaseVersion
      = some (if svEx "garbage" then "garbage" else mgrEx.defaultVersion)
  ∧ ((runDetection svEx mgrEx "garbage").2).getLast? = some DetEv.factoryDisconnect :=
  detection_private_connection svEx mgrEx "garbage"

/-- A concrete replication sub-config: a bare write target and one read
target given as a single object (not an array). -/
def replEx : ReplicationCfg :=
  { write := { host := none, port := none, username := none,
               password := none, database := none },
    read := ReplRead.one
      { host := some "replica-host", port := none, username := none,
        password := none, database := none } }

/-- A concrete config with replication configured. -/
def cfgRepl : Config :=
  { host := some "primary-host", port := some 3306, username := some "root",
    password := some "pw", database := some "db",
    pool := { max := 5, min := 0, idle := 10000 },
    replication := some replEx }

/-- Helper: the version phase never touches the stored config. -/
theorem versionStep_config (m : Manager) : (versionStep m).1.config = m.config := by
  unfold versionStep
  cases h : m.databaseVersion
  · simp only [h]
    cases h2 : m.versionPromise <;> simp [h2]
  · simp [h]

/-- Counterexample to C8 as stated: pool initialization does mutate the
stored config snapshot — on a replication config it rewrites the replication
sub-configuration in place. -/
theorem initPools_mutates_config : initPoolsConfig cfgRepl ≠ cfgRepl := by
  decide

/-- C8 (amended): after construction, the only mutation of the config
snapshot is the replication rewriting done by `initPools` — a non-replication
config is left untouched, the top-level fields and pool bounds are preserved
in every case, a replication config has exactly its `replication` entry
replaced by the normalized, defaults-filled form, and no other modelled
operation changes the snapshot. -/
theorem config_mutation_only_replication (m : Manager) (c : Config)
    (r : ReplicationCfg) (sv : String → Bool) (o : GcOpts) (q e : String)
    (ro wo : List Nat) (cl : Client) :
    (c.replication = none → initPoolsConfig c = c)
  ∧ ((initPoolsConfig c).host = c.host ∧ (initPoolsConfig c).port = c.port
     ∧ (initPoolsConfig c).username = c.username
     ∧ (initPoolsConfig c).password = c.password
     ∧ (initPoolsConfig c).database = c.database
     ∧ (initPoolsConfig c).pool = c.pool)
  ∧ (c.replication = some r →
      (initPoolsConfig c).replication
        = some ⟨defaultsTarget r.write c,
                ReplRead.many ((replReadList r.read).map (fun t => defaultsTarget t c))⟩)
  ∧ (close m).config = m.config
  ∧ (versionStep m).1.config = m.config
  ∧ (getConnection m o).1.config = m.config
  ∧ (releaseConnection m ro wo cl).1.config = m.config
  ∧ (runDetection sv m q).1.config = m.config
  ∧ (detectionFail m e).1.config = m.config := by
  refine ⟨?_, ?_, ?_, rfl, versionStep_config m, ?_, rfl, rfl, rfl⟩
  · intro h
    simp [initPoolsConfig, h]
  · unfold initPoolsConfig
    cases h : c.replication <;> simp [h]
  · intro h
    simp [initPoolsConfig, h]
  · unfold getConnection
    split
    · rfl
    · exact versionStep_config m

/-- Witness for C8 (amended) at the concrete replication config: the
replication entry is replaced by its normalized, defaults-filled form. -/
theorem config_mutation_only_replication_witness :
    (initPoolsConfig cfgRepl).replication
      = some ⟨defaultsTarget replEx.write cfgRepl,
              ReplRead.many ((replReadList replEx.read).map
                (fun t => defaultsTarget t cfgRepl))⟩ :=
  (config_mutation_only_replication mgrEx cfgRepl replEx svEx
    { priority := none, type := none, useMaster := none } "q" "e" [] []
    { id := 0, queryType := none }).2.2.1 rfl

end ConnMgr
